import Mathlib

/-!
# go-whosonfirst-data: redirect handler and document-store resolver

A shallow embedding of

* `cmd/server/main.go` (`NewRedirectHandler`), and
* `vendor/github.com/whosonfirst/go-whosonfirst-findingaid/v2/resolver/docstore.go`
  (`NewDocstoreResolver`, `DocstoreResolver.GetRepo`).

Go functions of type `(T, error)` are functions into `Except Error T`; `GetRepo`,
whose implementation in docstore.go can panic, is a function into `Result`, which
has the panic as a third ending.  A run of the handler is the list of the calls
it makes, in program order: the calls to its collaborators with their results,
the log lines, and the calls that write the response (`http.Error`,
`http.Redirect`).  A run that a panic unwinds stops at the call that panicked.
-/

namespace WhosOnFirst

/-! ## Errors -/

/-- A Go `error` value: its message, and whether it is (or wraps) the
document store's not-found condition. -/
structure Error where
  msg : String
  notFound : Bool
  deriving DecidableEq, Repr

/-- The call `fmt.Errorf(format, err)` with the verb `%w`: the new error has the
formatted message and wraps `err`, so it is still a not-found error when `err` is. -/
def Errorf_w (pre : String) (err : Error) : Error :=
  { msg := pre ++ err.msg, notFound := err.notFound }

/-- The call `fmt.Errorf(format, err)` with the verb `%v`: only the message of
`err` survives, nothing is wrapped. -/
def Errorf_v (pre : String) (err : Error) : Error :=
  { msg := pre ++ err.msg, notFound := false }

/-- How a call of a Go function `(T, error)` ends: it returns its pair of
results, or it panics. -/
inductive Result (α : Type) where
  | returns (val : α) (err : Option Error)
  | panics
  deriving DecidableEq, Repr

/-! ## cmd/server/main.go -/

/-- The qualifier arguments `*uri.URIArgs` that `uri.ParseURI` returns next to the
identifier.  The handler only hands them on to `uri.Id2RelPath`. -/
structure URIArgs where
  qualifiers : List String
  deriving DecidableEq, Repr

/-- The part of `*http.Request` the handler reads: `req.URL.Path`. -/
structure Request where
  Path : String
  deriving DecidableEq, Repr

/-- The interface `resolver.Resolver`, as far as the handler uses it.  A call of
`GetRepo` returns a name and an error, or panics (as the implementation in
docstore.go does at its type assertion). -/
structure Resolver where
  GetRepo : Int → Result String

/-- The type `*uritemplates.UriTemplate`: `Expand` takes the map of values, here
a list of key/value pairs. -/
structure UriTemplate where
  Expand : List (String × String) → Except Error String

/-- The struct `RedirectHandlerOptions`. -/
structure RedirectHandlerOptions where
  Resolver : Resolver
  Template : UriTemplate

/-- The package-level functions the handler calls: `uri.ParseURI`,
`uri.Id2RelPath` (go-whosonfirst-uri) and `url.JoinPath` (net/url). -/
structure Packages where
  ParseURI : String → Except Error (Int × URIArgs)
  Id2RelPath : Int → URIArgs → Except Error String
  JoinPath : String → String → Except Error String

/-- The constant `http.StatusSeeOther`. -/
def StatusSeeOther : Nat := 303

/-- The constant `http.StatusBadRequest`. -/
def StatusBadRequest : Nat := 400

/-- The constant `http.StatusNotFound`. -/
def StatusNotFound : Nat := 404

/-- The constant `http.StatusInternalServerError`. -/
def StatusInternalServerError : Nat := 500

/-- One call made by the handler while it serves a request. -/
inductive Event where
  | ParseURI (path : String) (r : Except Error (Int × URIArgs))
  | GetRepo (id : Int) (r : Result String)
  | Id2RelPath (id : Int) (args : URIArgs) (r : Except Error String)
  | Expand (values : List (String × String)) (r : Except Error String)
  | JoinPath (root rel : String) (r : Except Error String)
  | logError (msg : String) (err : Error)
  | logInfo (msg : String) (url : String)
  | httpError (body : String) (code : Nat)
  | httpRedirect (url : String) (code : Nat)

/-- The closure `fn` of `NewRedirectHandler`: the calls made for one request.  The
closure has no `recover`: when `GetRepo` panics the run ends there. -/
def NewRedirectHandler.fn (pkg : Packages) (opts : RedirectHandlerOptions)
    (req : Request) : List Event :=
  match pkg.ParseURI req.Path with
  | .error err =>
    [ .ParseURI req.Path (.error err),
      .logError "Failed to parse path" err,
      .httpError "Bad request" StatusBadRequest ]
  | .ok (id, uri_args) =>
    match opts.Resolver.GetRepo id with
    | .panics =>
      [ .ParseURI req.Path (.ok (id, uri_args)),
        .GetRepo id .panics ]
    | .returns repo (some err) =>
      [ .ParseURI req.Path (.ok (id, uri_args)),
        .GetRepo id (.returns repo (some err)),
        .logError "Failed to derive respository" err,
        .httpError "Not found" StatusNotFound ]
    | .returns repo none =>
      match pkg.Id2RelPath id uri_args with
      | .error err =>
        [ .ParseURI req.Path (.ok (id, uri_args)),
          .GetRepo id (.returns repo none),
          .Id2RelPath id uri_args (.error err),
          .logError "Failed to derive relative path" err,
          .httpError "Internal server error" StatusInternalServerError ]
      | .ok rel_path =>
        let values := [("repo", repo)]
        match opts.Template.Expand values with
        | .error err =>
          [ .ParseURI req.Path (.ok (id, uri_args)),
            .GetRepo id (.returns repo none),
            .Id2RelPath id uri_args (.ok rel_path),
            .Expand values (.error err),
            .logError "Failed to expand template" err,
            .httpError "Internal server error" StatusInternalServerError ]
        | .ok root_uri =>
          match pkg.JoinPath root_uri rel_path with
          | .error err =>
            [ .ParseURI req.Path (.ok (id, uri_args)),
              .GetRepo id (.returns repo none),
              .Id2RelPath id uri_args (.ok rel_path),
              .Expand values (.ok root_uri),
              .JoinPath root_uri rel_path (.error err),
              .logError "Failed to derive final data URI" err,
              .httpError "Internal server error" StatusInternalServerError ]
          | .ok data_uri =>
            [ .ParseURI req.Path (.ok (id, uri_args)),
              .GetRepo id (.returns repo none),
              .Id2RelPath id uri_args (.ok rel_path),
              .Expand values (.ok root_uri),
              .JoinPath root_uri rel_path (.ok data_uri),
              .logInfo "redirect" data_uri,
              .httpRedirect data_uri StatusSeeOther ]

/-- The function `NewRedirectHandler`: it returns the handler `fn` and a nil error. -/
def NewRedirectHandler (pkg : Packages) (opts : RedirectHandlerOptions) :
    (Request → List Event) × Option Error :=
  (NewRedirectHandler.fn pkg opts, none)

/-! ### Reading a run -/

/-- What the client receives: the call that wrote the response. -/
inductive Response where
  | Error (body : String) (code : Nat)
  | Redirect (url : String) (code : Nat)
  deriving DecidableEq, Repr

/-- The status code of a response. -/
def Response.status : Response → Nat
  | .Error _ code => code
  | .Redirect _ code => code

/-- The `Location` of a response: the target handed to `http.Redirect`, which
net/http writes to the header; `http.Error` sets none. -/
def Response.location : Response → Option String
  | .Error _ _ => none
  | .Redirect url _ => some url

/-- The response an event writes, if it writes one. -/
def Event.response : Event → Option Response
  | .httpError body code => some (.Error body code)
  | .httpRedirect url code => some (.Redirect url code)
  | _ => none

/-- All responses written during a run, in order. -/
def responses (run : List Event) : List Response :=
  run.filterMap Event.response

/-- The steps of the handler that call a collaborator. -/
inductive Step where
  | Parse
  | Resolve
  | DeriveRelativePath
  | Expand
  | Join
  deriving DecidableEq, Repr

/-- The step an event invokes, if it is a collaborator call. -/
def Event.step : Event → Option Step
  | .ParseURI _ _ => some .Parse
  | .GetRepo _ _ => some .Resolve
  | .Id2RelPath _ _ _ => some .DeriveRelativePath
  | .Expand _ _ => some .Expand
  | .JoinPath _ _ _ => some .Join
  | _ => none

/-- How a collaborator call ended: it returned a nil error, it returned an
error, or it panicked. -/
inductive Ending where
  | success
  | failure
  | panic
  deriving DecidableEq, Repr

/-- The ending of a call that returns a value or an error. -/
def ending {α : Type} : Except Error α → Ending
  | .ok _ => .success
  | .error _ => .failure

/-- The ending of a call that may panic. -/
def Result.ending {α : Type} : Result α → Ending
  | .returns _ none => .success
  | .returns _ (some _) => .failure
  | .panics => .panic

/-- A collaborator call with its ending. -/
def Event.outcome : Event → Option (Step × Ending)
  | .ParseURI _ r => some (.Parse, ending r)
  | .GetRepo _ r => some (.Resolve, r.ending)
  | .Id2RelPath _ _ r => some (.DeriveRelativePath, ending r)
  | .Expand _ r => some (.Expand, ending r)
  | .JoinPath _ _ r => some (.Join, ending r)
  | _ => none

/-- Whether a recorded collaborator call carries the result that the collaborator
gives for the recorded arguments. -/
def Event.genuine (pkg : Packages) (opts : RedirectHandlerOptions) : Event → Prop
  | .ParseURI path r => r = pkg.ParseURI path
  | .GetRepo id r => r = opts.Resolver.GetRepo id
  | .Id2RelPath id args r => r = pkg.Id2RelPath id args
  | .Expand values r => r = opts.Template.Expand values
  | .JoinPath root rel r => r = pkg.JoinPath root rel
  | _ => True

/-- The steps invoked during a run, in order. -/
def steps (run : List Event) : List Step :=
  run.filterMap Event.step

/-- The collaborator calls of a run with their endings, in order. -/
def outcomes (run : List Event) : List (Step × Ending) :=
  run.filterMap Event.outcome

/-- The fixed order of the steps. -/
def pipeline : List Step :=
  [.Parse, .Resolve, .DeriveRelativePath, .Expand, .Join]

/-- The identifiers `GetRepo` was called with during a run. -/
def getRepoCalls (run : List Event) : List Int :=
  run.filterMap fun e => match e with
    | .GetRepo id _ => some id
    | _ => none

/-- The first collaborator call of a run that returned an error. -/
def failedStep (run : List Event) : Option Step :=
  ((outcomes run).find? fun p => p.2 = .failure).map Prod.fst

/-- The response written by the failure branch of each step: the arguments of its
`http.Error` call. -/
def failureResponse : Step → Response
  | .Parse => .Error "Bad request" StatusBadRequest
  | .Resolve => .Error "Not found" StatusNotFound
  | .DeriveRelativePath => .Error "Internal server error" StatusInternalServerError
  | .Expand => .Error "Internal server error" StatusInternalServerError
  | .Join => .Error "Internal server error" StatusInternalServerError

/-! ## resolver/docstore.go -/

/-- A Go value of type `interface{}` as it occurs in a document. -/
inductive Value where
  | nil
  | string (s : String)
  | int64 (i : Int)
  | bool (b : Bool)
  deriving DecidableEq, Repr

/-- A document `map[string]interface{}`, as a list of key/value pairs; the first
pair with a given key is the entry of that key. -/
abbrev Doc := List (String × Value)

/-- The index expression `doc[key]`: the entry, or the nil interface when the
map has no such key. -/
def Doc.index (doc : Doc) (key : String) : Value :=
  match doc.lookup key with
  | some v => v
  | none => .nil

/-- The type `*docstore.Collection`: `Get` receives the document with its key
field set and, when it succeeds, has populated it from the stored record. -/
structure Collection where
  Get : Doc → Except Error Doc

/-- The struct `DocstoreResolver`. -/
structure DocstoreResolver where
  collection : Collection

/-- The type assertion `v.(string)` in its one-result form: it panics unless the
dynamic type of `v` is `string`. -/
def Value.assertString : Value → Option String
  | .string s => some s
  | _ => none

/-- The method `DocstoreResolver.GetRepo`. -/
def DocstoreResolver.GetRepo (r : DocstoreResolver) (id : Int) : Result String :=
  let doc : Doc := [("id", .int64 id), ("repo_name", .string "")]
  match r.collection.Get doc with
  | .error err =>
    .returns "" (some (Errorf_w ("Failed to get record for " ++ toString id ++ ", ") err))
  | .ok doc =>
    match (doc.index "repo_name").assertString with
    | none => .panics
    | some repo => .returns repo none

/-- A `*DocstoreResolver` as a value of the interface `resolver.Resolver`, which is
how `NewDocstoreResolver` returns it. -/
def DocstoreResolver.asResolver (r : DocstoreResolver) : Resolver :=
  { GetRepo := r.GetRepo }

/-- The parts of `*url.URL` that `NewDocstoreResolver` reads: `Scheme`, `Host` and
the parsed query `u.Query()`. -/
structure URL where
  Scheme : String
  Host : String
  Query : List (String × List String)
  deriving DecidableEq, Repr

/-- The method `url.Values.Get`: the first value of the key, or the empty string. -/
def Values.Get (q : List (String × List String)) (key : String) : String :=
  match q.lookup key with
  | some (v :: _) => v
  | _ => ""

/-- The function `strings.TrimLeft`: drop every leading character that occurs in
the cutset. -/
def TrimLeft (s cutset : String) : String :=
  ⟨s.data.dropWhile fun c => cutset.data.contains c⟩

/-- The functions `NewDocstoreResolver` calls: `url.Parse`,
`dynamodb.NewClientWithURI`, `gc_dynamodb.OpenCollection` (client, table name,
partition key, sort key; its options argument is always nil) and
`docstore.OpenCollection`. -/
structure Backend (Client : Type) where
  Parse : String → Except Error URL
  NewClientWithURI : String → Except Error Client
  DynamoOpenCollection : Client → String → String → String → Except Error Collection
  OpenCollection : String → Except Error Collection

/-- A call `NewDocstoreResolver` makes to build a client or open a collection. -/
inductive Call (Client : Type) where
  | NewClientWithURI (uri : String)
  | DynamoOpenCollection (client : Client) (table_name partition_key sort_key : String)
  | OpenCollection (uri : String)

/-- What `NewDocstoreResolver` returns (a resolver or nil, an error or nil),
together with the calls it made. -/
structure Constructed (Client : Type) where
  resolver : Option DocstoreResolver
  err : Option Error
  calls : List (Call Client)

/-- The function `NewDocstoreResolver`.  The variable `err` of the last check is
the one assigned by the first `url.Parse`: the branches declare their own.  The
second `url.Parse(uri)`, in the awsdynamodb branch, parses the string the first
one parsed and yields the same `u`. -/
def NewDocstoreResolver {Client : Type} (b : Backend Client) (uri : String) :
    Constructed Client :=
  match b.Parse uri with
  | .error err => ⟨none, some (Errorf_w "Failed to parse URL, " err), []⟩
  | .ok u =>
    let err : Option Error := none
    let opened : Except Error Collection × List (Call Client) :=
      if u.Scheme = "awsdynamodb" then
        match b.NewClientWithURI uri with
        | .error err =>
          (.error (Errorf_v "Failed to create client, " err), [.NewClientWithURI uri])
        | .ok client =>
          let table_name := u.Host
          let table_name := TrimLeft table_name "/"
          let q := u.Query
          let partition_key := Values.Get q "partition_key"
          match b.DynamoOpenCollection client table_name partition_key "" with
          | .error err =>
            (.error (Errorf_w "Failed to open collection, " err),
              [.NewClientWithURI uri,
               .DynamoOpenCollection client table_name partition_key ""])
          | .ok col =>
            (.ok col,
              [.NewClientWithURI uri,
               .DynamoOpenCollection client table_name partition_key ""])
      else
        match b.OpenCollection uri with
        | .error err =>
          (.error (Errorf_w ("Failed to create database for \x27" ++ uri ++ "\x27, ") err),
            [.OpenCollection uri])
        | .ok col => (.ok col, [.OpenCollection uri])
    match opened with
    | (.error e, calls) => ⟨none, some e, calls⟩
    | (.ok collection, calls) =>
      match err with
      | some err => ⟨none, some (Errorf_w "Failed to open collection, " err), calls⟩
      | none => ⟨some { collection := collection }, none, calls⟩

/-! ## The collaborators of Scenario A

The identifier parser (go-whosonfirst-uri) and the template library
(uritemplates) are vendored packages that are not part of the two source files.
The handler is verified for arbitrary collaborators; the definitions below are
one instance, used to run the handler on concrete requests. -/

/-- The value of a string of decimal digits. -/
def digitsValue (ds : List Char) : Nat :=
  ds.foldl (fun n c => 10 * n + (c.toNat - 48)) 0

/-- Modelled from the spec: `uri.ParseURI` of the identifier parser, which is not
under src/.  "parse(path) -> (Identifier, QualifierArguments), fails with
MalformedIdentifier when the path does not contain a valid leading numeric
identifier"; an empty path and a non-numeric leading segment are malformed.  The
qualifier syntax is left open by the spec, so this instance accepts the plain
identifier with an optional `.geojson` extension and carries no qualifier. -/
def uri.ParseURI (path : String) : Except Error (Int × URIArgs) :=
  let s := path.data.dropWhile fun c => c = '/'
  let ds := s.takeWhile Char.isDigit
  let rest := s.dropWhile Char.isDigit
  if ds = [] then .error ⟨"MalformedIdentifier", false⟩
  else if rest = [] ∨ rest = ".geojson".data then .ok (Int.ofNat (digitsValue ds), ⟨[]⟩)
  else .error ⟨"MalformedIdentifier", false⟩

/-- Cut a list into pieces of three; the last piece has one to three elements. -/
def chunks3 {α : Type} : List α → List (List α)
  | [] => []
  | [a] => [[a]]
  | [a, b] => [[a, b]]
  | [a, b, c] => [[a, b, c]]
  | a :: b :: c :: rest => [a, b, c] :: chunks3 rest

/-- Modelled from the spec: `uri.Id2RelPath` of the identifier parser, which is
not under src/.  The primary form that Scenario A fixes: the decimal digits of
the identifier in groups of three as directories, then `<id>.geojson`
(1360391327 gives 136/039/132/7/1360391327.geojson).  The spec names no
qualifier rule, so every qualifier fails with UnsupportedQualifier. -/
def uri.Id2RelPath (id : Int) (args : URIArgs) : Except Error String :=
  if args.qualifiers = [] then
    let ds := toString id
    .ok (String.intercalate "/" ((chunks3 ds.data).map String.mk) ++ "/" ++ ds ++ ".geojson")
  else .error ⟨"UnsupportedQualifier", false⟩

/-- Expansion of a template text: each `\x7bname\x7d` is replaced by the value bound
to `name` (by nothing when the name is unbound); a brace that is never closed is
an expansion failure.  `open` is the name being read, `out` the reversed output. -/
def expandChars (values : List (String × String)) :
    List Char → Option (List Char) → List Char → Except Error String
  | [], none, out => .ok (String.mk out.reverse)
  | [], some _, _ => .error ⟨"TemplateExpansionError", false⟩
  | c :: cs, none, out =>
    if c = '\x7b' then expandChars values cs (some []) out
    else expandChars values cs none (c :: out)
  | c :: cs, some name, out =>
    if c = '\x7d' then
      match values.lookup (String.mk name.reverse) with
      | some v => expandChars values cs none (v.data.reverse ++ out)
      | none => expandChars values cs none out
    else expandChars values cs (some (c :: name)) out

/-- Modelled from the spec: `uritemplates.Parse` and `UriTemplate.Expand`, which are
not under src/.  "Expands the template with repository name bound to its
placeholder, fails with TemplateExpansionError on expansion failure". -/
def uritemplates.Parse (template : String) : UriTemplate :=
  { Expand := fun values => expandChars values template.data none [] }

/-- Drop the trailing slashes of a list of characters. -/
def trimRightSlash (s : List Char) : List Char :=
  (s.reverse.dropWhile fun c => c = '/').reverse

/-- An instance of `url.JoinPath` (net/url) for a root and a relative path without
dot segments or doubled slashes: the two are joined by exactly one slash. -/
def url.JoinPath (root rel : String) : Except Error String :=
  .ok (String.mk (trimRightSlash root.data ++ '/' :: rel.data.dropWhile fun c => c = '/'))

/-- The package functions of Scenario A. -/
def scenarioPackages : Packages :=
  { ParseURI := uri.ParseURI, Id2RelPath := uri.Id2RelPath, JoinPath := url.JoinPath }

/-- A resolver over a finding aid given as a table from identifiers to
repository names; an identifier outside the table is not found. -/
def tableResolver (table : List (Int × String)) : Resolver :=
  { GetRepo := fun id =>
      match table.lookup id with
      | some repo => .returns repo none
      | none => .returns "" (some ⟨"not found", true⟩) }

/-- A resolver whose backend cannot be reached: every lookup fails with an error
that is not a not-found error. -/
def unreachableResolver : Resolver :=
  { GetRepo := fun _ => .returns "" (some ⟨"dial tcp: connection refused", false⟩) }

/-- The options of Scenario A: the finding aid knows 1360391327, and the template
is the one of the scenario. -/
def scenarioOptions : RedirectHandlerOptions :=
  { Resolver := tableResolver [(1360391327, "sfomuseum-data-maps")],
    Template := uritemplates.Parse
      "https://raw.githubusercontent.com/sfomuseum-data/\x7brepo\x7d/main/data" }

/-! ## A document store and a backend to run the resolver on -/

/-- A collection holding the given records by identifier, with the get-by-key
behaviour of a docstore collection on a map document: no record under the key is
a not-found error; otherwise the fields of the record are written into the
document and the other entries of the document stay as they were. -/
def tableCollection (records : List (Int × Doc)) : Collection :=
  { Get := fun doc =>
      match doc.index "id" with
      | .int64 id =>
        match records.lookup id with
        | some record => .ok (record ++ doc)
        | none => .error ⟨"docstore: document not found", true⟩
      | _ => .error ⟨"docstore: missing key field", false⟩ }

/-- The part of a list before the first separator, and the part after it when
there is a separator. -/
def cutAt (sep : Char) : List Char → List Char × Option (List Char)
  | [] => ([], none)
  | c :: cs =>
    if c = sep then ([], some cs)
    else ((c :: (cutAt sep cs).1), (cutAt sep cs).2)

/-- The pieces of a list between separators. -/
def splitAll (sep : Char) : List Char → List (List Char)
  | [] => [[]]
  | c :: cs =>
    if c = sep then [] :: splitAll sep cs
    else
      match splitAll sep cs with
      | [] => [[c]]
      | piece :: pieces => (c :: piece) :: pieces

/-- The query `k1=v1&k2=v2...` as the values of `u.Query()`, one entry per pair, in
the order of the query. -/
def parseQuery (raw : List Char) : List (String × List String) :=
  if raw = [] then []
  else (splitAll '&' raw).map fun pair =>
    (String.mk (cutAt '=' pair).1, [String.mk ((cutAt '=' pair).2.getD [])])

/-- An instance of `url.Parse` (net/url) for configuration URIs of the form
`scheme://host?query`: a control character is a parse error, as in net/url. -/
def url.Parse (uri : String) : Except Error URL :=
  if uri.data.any (fun c => c.toNat < 32 ∨ c.toNat = 127) then
    .error ⟨"net/url: invalid control character in URL", false⟩
  else
    match cutAt ':' uri.data with
    | (scheme, some ('/' :: '/' :: rest)) =>
      let authority := (cutAt '?' rest).1
      .ok { Scheme := String.mk scheme,
            Host := String.mk (cutAt '/' authority).1,
            Query := parseQuery ((cutAt '?' rest).2.getD []) }
    | _ => .ok { Scheme := "", Host := "", Query := parseQuery ((cutAt '?' uri.data).2.getD []) }

/-- A backend for running `NewDocstoreResolver`: a client is the URI it was built
from; building a client fails without a region in the URI; a table is opened
through a client when it is the table `findingaid`; the driver opens the
in-memory collection `mem://findingaid/id` and no other. -/
def localBackend : Backend String :=
  { Parse := url.Parse,
    NewClientWithURI := fun uri =>
      match url.Parse uri with
      | .ok u =>
        if Values.Get u.Query "region" = "" then .error ⟨"missing region", false⟩
        else .ok uri
      | .error e => .error e,
    DynamoOpenCollection := fun _ table_name _ _ =>
      if table_name = "findingaid" then
        .ok (tableCollection [(1360391327, [("id", .int64 1360391327),
          ("repo_name", .string "sfomuseum-data-maps")])])
      else .error ⟨"ResourceNotFoundException", false⟩,
    OpenCollection := fun uri =>
      if uri = "mem://findingaid/id" then .ok (tableCollection [])
      else .error ⟨"no driver registered", false⟩ }

/-- The configuration URI of the header comment of docstore.go. -/
def findingaidURI : String :=
  "awsdynamodb://findingaid?region=us-west-2&endpoint=http://localhost:8000&credentials=static:local:local:local&partition_key=id"

/-- Scenario C: the options of Scenario A with an unreachable backend. -/
def unreachableOptions : RedirectHandlerOptions :=
  { scenarioOptions with Resolver := unreachableResolver }

/-- The options of Scenario A with a template whose placeholder is never closed. -/
def brokenTemplateOptions : RedirectHandlerOptions :=
  { scenarioOptions with
    Template := uritemplates.Parse "https://raw.githubusercontent.com/sfomuseum-data/\x7brepo" }

/-- The options of Scenario A with the document-store resolver over a collection
whose stored record of identifier 1360391327 has the number 42 as its
repository-name field. -/
def malformedRecordOptions : RedirectHandlerOptions :=
  { scenarioOptions with
    Resolver := DocstoreResolver.asResolver
      ⟨tableCollection [(1360391327,
        [("id", .int64 1360391327), ("repo_name", .int64 42)])]⟩ }

/-! ## The runs of the handler, branch by branch -/

theorem run_parse_error (pkg : Packages) (opts : RedirectHandlerOptions) (req : Request)
    (err : Error) (hparse : pkg.ParseURI req.Path = .error err) :
    (NewRedirectHandler pkg opts).1 req =
      [ .ParseURI req.Path (.error err),
        .logError "Failed to parse path" err,
        .httpError "Bad request" 400 ] := by
  simp [NewRedirectHandler, NewRedirectHandler.fn, hparse, StatusBadRequest]

theorem run_resolve_error (pkg : Packages) (opts : RedirectHandlerOptions) (req : Request)
    (id : Int) (args : URIArgs) (val : String) (err : Error)
    (hparse : pkg.ParseURI req.Path = .ok (id, args))
    (hrepo : opts.Resolver.GetRepo id = .returns val (some err)) :
    (NewRedirectHandler pkg opts).1 req =
      [ .ParseURI req.Path (.ok (id, args)),
        .GetRepo id (.returns val (some err)),
        .logError "Failed to derive respository" err,
        .httpError "Not found" 404 ] := by
  simp [NewRedirectHandler, NewRedirectHandler.fn, hparse, hrepo, StatusNotFound]

theorem run_resolve_panic (pkg : Packages) (opts : RedirectHandlerOptions) (req : Request)
    (id : Int) (args : URIArgs)
    (hparse : pkg.ParseURI req.Path = .ok (id, args))
    (hrepo : opts.Resolver.GetRepo id = .panics) :
    (NewRedirectHandler pkg opts).1 req =
      [ .ParseURI req.Path (.ok (id, args)),
        .GetRepo id .panics ] := by
  simp [NewRedirectHandler, NewRedirectHandler.fn, hparse, hrepo]

theorem run_relpath_error (pkg : Packages) (opts : RedirectHandlerOptions) (req : Request)
    (id : Int) (args : URIArgs) (repo : String) (err : Error)
    (hparse : pkg.ParseURI req.Path = .ok (id, args))
    (hrepo : opts.Resolver.GetRepo id = .returns repo none)
    (hrel : pkg.Id2RelPath id args = .error err) :
    (NewRedirectHandler pkg opts).1 req =
      [ .ParseURI req.Path (.ok (id, args)),
        .GetRepo id (.returns repo none),
        .Id2RelPath id args (.error err),
        .logError "Failed to derive relative path" err,
        .httpError "Internal server error" 500 ] := by
  simp [NewRedirectHandler, NewRedirectHandler.fn, hparse, hrepo, hrel,
    StatusInternalServerError]

theorem run_expand_error (pkg : Packages) (opts : RedirectHandlerOptions) (req : Request)
    (id : Int) (args : URIArgs) (repo rel_path : String) (err : Error)
    (hparse : pkg.ParseURI req.Path = .ok (id, args))
    (hrepo : opts.Resolver.GetRepo id = .returns repo none)
    (hrel : pkg.Id2RelPath id args = .ok rel_path)
    (hexp : opts.Template.Expand [("repo", repo)] = .error err) :
    (NewRedirectHandler pkg opts).1 req =
      [ .ParseURI req.Path (.ok (id, args)),
        .GetRepo id (.returns repo none),
        .Id2RelPath id args (.ok rel_path),
        .Expand [("repo", repo)] (.error err),
        .logError "Failed to expand template" err,
        .httpError "Internal server error" 500 ] := by
  simp [NewRedirectHandler, NewRedirectHandler.fn, hparse, hrepo, hrel, hexp,
    StatusInternalServerError]

theorem run_join_error (pkg : Packages) (opts : RedirectHandlerOptions) (req : Request)
    (id : Int) (args : URIArgs) (repo rel_path root_uri : String) (err : Error)
    (hparse : pkg.ParseURI req.Path = .ok (id, args))
    (hrepo : opts.Resolver.GetRepo id = .returns repo none)
    (hrel : pkg.Id2RelPath id args = .ok rel_path)
    (hexp : opts.Template.Expand [("repo", repo)] = .ok root_uri)
    (hjoin : pkg.JoinPath root_uri rel_path = .error err) :
    (NewRedirectHandler pkg opts).1 req =
      [ .ParseURI req.Path (.ok (id, args)),
        .GetRepo id (.returns repo none),
        .Id2RelPath id args (.ok rel_path),
        .Expand [("repo", repo)] (.ok root_uri),
        .JoinPath root_uri rel_path (.error err),
        .logError "Failed to derive final data URI" err,
        .httpError "Internal server error" 500 ] := by
  simp [NewRedirectHandler, NewRedirectHandler.fn, hparse, hrepo, hrel, hexp, hjoin,
    StatusInternalServerError]

theorem run_success (pkg : Packages) (opts : RedirectHandlerOptions) (req : Request)
    (id : Int) (args : URIArgs) (repo rel_path root_uri data_uri : String)
    (hparse : pkg.ParseURI req.Path = .ok (id, args))
    (hrepo : opts.Resolver.GetRepo id = .returns repo none)
    (hrel : pkg.Id2RelPath id args = .ok rel_path)
    (hexp : opts.Template.Expand [("repo", repo)] = .ok root_uri)
    (hjoin : pkg.JoinPath root_uri rel_path = .ok data_uri) :
    (NewRedirectHandler pkg opts).1 req =
      [ .ParseURI req.Path (.ok (id, args)),
        .GetRepo id (.returns repo none),
        .Id2RelPath id args (.ok rel_path),
        .Expand [("repo", repo)] (.ok root_uri),
        .JoinPath root_uri rel_path (.ok data_uri),
        .logInfo "redirect" data_uri,
        .httpRedirect data_uri 303 ] := by
  simp [NewRedirectHandler, NewRedirectHandler.fn, hparse, hrepo, hrel, hexp, hjoin,
    StatusSeeOther]

/-! ## The handler: responses -/

/-- C1: when the parser, `GetRepo`, the relative-path derivation, the template
expansion and the URL join all succeed, the handler writes exactly one response,
a redirect with status 303 See Other whose Location is the result of joining the
expansion of the template at `repo := GetRepo(id)` with the relative path of the
parsed identifier and arguments. -/
theorem redirect_see_other (pkg : Packages) (opts : RedirectHandlerOptions) (req : Request)
    (id : Int) (args : URIArgs) (repo rel_path root_uri data_uri : String)
    (hparse : pkg.ParseURI req.Path = .ok (id, args))
    (hrepo : opts.Resolver.GetRepo id = .returns repo none)
    (hrel : pkg.Id2RelPath id args = .ok rel_path)
    (hexp : opts.Template.Expand [("repo", repo)] = .ok root_uri)
    (hjoin : pkg.JoinPath root_uri rel_path = .ok data_uri) :
    responses ((NewRedirectHandler pkg opts).1 req) = [.Redirect data_uri 303] ∧
    (responses ((NewRedirectHandler pkg opts).1 req)).map Response.status = [303] ∧
    (responses ((NewRedirectHandler pkg opts).1 req)).map Response.location
      = [some data_uri] := by
  rw [run_success pkg opts req id args repo rel_path root_uri data_uri
    hparse hrepo hrel hexp hjoin]
  simp [responses, Event.response, Response.status, Response.location]

/-- Scenario A: identifier 1360391327, repository sfomuseum-data-maps and the
template of the scenario give a 303 to the data file of the scenario. -/
theorem redirect_see_other_scenario_A :
    responses ((NewRedirectHandler scenarioPackages scenarioOptions).1 ⟨"/1360391327"⟩)
      = [.Redirect
          "https://raw.githubusercontent.com/sfomuseum-data/sfomuseum-data-maps/main/data/136/039/132/7/1360391327.geojson"
          303] :=
  (redirect_see_other scenarioPackages scenarioOptions ⟨"/1360391327"⟩
    1360391327 ⟨[]⟩ "sfomuseum-data-maps" "136/039/132/7/1360391327.geojson"
    "https://raw.githubusercontent.com/sfomuseum-data/sfomuseum-data-maps/main/data"
    "https://raw.githubusercontent.com/sfomuseum-data/sfomuseum-data-maps/main/data/136/039/132/7/1360391327.geojson"
    rfl rfl rfl rfl rfl).1

/-- C2: when the identifier parser rejects the request path, the handler writes
exactly one response, with status 400, and `GetRepo` is never called. -/
theorem malformed_path_bad_request (pkg : Packages) (opts : RedirectHandlerOptions)
    (req : Request) (err : Error)
    (hparse : pkg.ParseURI req.Path = .error err) :
    responses ((NewRedirectHandler pkg opts).1 req) = [.Error "Bad request" 400] ∧
    (responses ((NewRedirectHandler pkg opts).1 req)).map Response.status = [400] ∧
    getRepoCalls ((NewRedirectHandler pkg opts).1 req) = [] := by
  rw [run_parse_error pkg opts req err hparse]
  simp [responses, Event.response, Response.status, getRepoCalls]

/-- The empty path and a path with a non-numeric leading segment are rejected by
the parser of the scenario; the empty path is answered with 400 and no call of
`GetRepo`. -/
theorem malformed_path_bad_request_empty_path :
    uri.ParseURI "" = .error ⟨"MalformedIdentifier", false⟩ ∧
    uri.ParseURI "/abc" = .error ⟨"MalformedIdentifier", false⟩ ∧
    (responses ((NewRedirectHandler scenarioPackages scenarioOptions).1 ⟨""⟩)).map
      Response.status = [400] ∧
    getRepoCalls ((NewRedirectHandler scenarioPackages scenarioOptions).1 ⟨""⟩) = [] :=
  ⟨rfl, rfl,
    (malformed_path_bad_request scenarioPackages scenarioOptions ⟨""⟩
      ⟨"MalformedIdentifier", false⟩ rfl).2⟩

/-- C3, as the spec states it, fails: with the backend unreachable (an error of
`GetRepo` that is not a not-found error) the handler answers 404, not 500. -/
theorem backend_failure_is_not_500 :
    scenarioPackages.ParseURI "/1360391327" = .ok (1360391327, ⟨[]⟩) ∧
    unreachableOptions.Resolver.GetRepo 1360391327
      = .returns "" (some ⟨"dial tcp: connection refused", false⟩) ∧
    (responses ((NewRedirectHandler scenarioPackages unreachableOptions).1
      ⟨"/1360391327"⟩)).map Response.status = [404] ∧
    (responses ((NewRedirectHandler scenarioPackages unreachableOptions).1
      ⟨"/1360391327"⟩)).map Response.status ≠ [500] := by
  refine ⟨rfl, rfl, ?_, ?_⟩ <;> decide

/-- C3, amended: when the path parses and `GetRepo` fails with an error that is not
a not-found error, the handler writes exactly one response, with status 404 and
the body of the not-found case, and no Location is set. -/
theorem backend_failure_not_found_response (pkg : Packages)
    (opts : RedirectHandlerOptions) (req : Request) (id : Int) (args : URIArgs)
    (val : String) (err : Error)
    (hparse : pkg.ParseURI req.Path = .ok (id, args))
    (hrepo : opts.Resolver.GetRepo id = .returns val (some err))
    (_hbackend : err.notFound = false) :
    responses ((NewRedirectHandler pkg opts).1 req) = [.Error "Not found" 404] ∧
    (responses ((NewRedirectHandler pkg opts).1 req)).map Response.status = [404] ∧
    (responses ((NewRedirectHandler pkg opts).1 req)).map Response.location = [none] := by
  rw [run_resolve_error pkg opts req id args val err hparse hrepo]
  simp [responses, Event.response, Response.status, Response.location]

/-- Scenario C on the code: an unreachable backend is answered with 404 and no
Location. -/
theorem backend_failure_not_found_response_scenario_C :
    (responses ((NewRedirectHandler scenarioPackages unreachableOptions).1
      ⟨"/1360391327"⟩)).map Response.status = [404] ∧
    (responses ((NewRedirectHandler scenarioPackages unreachableOptions).1
      ⟨"/1360391327"⟩)).map Response.location = [none] :=
  (backend_failure_not_found_response scenarioPackages unreachableOptions
    ⟨"/1360391327"⟩ 1360391327 ⟨[]⟩ "" ⟨"dial tcp: connection refused", false⟩
    rfl rfl rfl).2

/-- C4: when the path parses and `GetRepo` fails with not-found, the handler writes
exactly one response, with status 404, and no Location is set. -/
theorem absent_identifier_not_found (pkg : Packages) (opts : RedirectHandlerOptions)
    (req : Request) (id : Int) (args : URIArgs) (val : String) (err : Error)
    (hparse : pkg.ParseURI req.Path = .ok (id, args))
    (hrepo : opts.Resolver.GetRepo id = .returns val (some err))
    (_habsent : err.notFound = true) :
    responses ((NewRedirectHandler pkg opts).1 req) = [.Error "Not found" 404] ∧
    (responses ((NewRedirectHandler pkg opts).1 req)).map Response.status = [404] ∧
    (responses ((NewRedirectHandler pkg opts).1 req)).map Response.location = [none] := by
  rw [run_resolve_error pkg opts req id args val err hparse hrepo]
  simp [responses, Event.response, Response.status, Response.location]

/-- Scenario B: identifier 12 is absent from the finding aid of the scenario; the
handler answers 404 and sets no Location. -/
theorem absent_identifier_not_found_scenario_B :
    (responses ((NewRedirectHandler scenarioPackages scenarioOptions).1 ⟨"/12"⟩)).map
      Response.status = [404] ∧
    (responses ((NewRedirectHandler scenarioPackages scenarioOptions).1 ⟨"/12"⟩)).map
      Response.location = [none] :=
  (absent_identifier_not_found scenarioPackages scenarioOptions ⟨"/12"⟩ 12 ⟨[]⟩
    "" ⟨"not found", true⟩ rfl rfl rfl).2

/-- C8: when parsing and `GetRepo` succeed but the relative-path derivation, the
template expansion or the URL join fails, the handler writes exactly one
response, with status 500, and no Location is set. -/
theorem composition_failure_internal_error (pkg : Packages)
    (opts : RedirectHandlerOptions) (req : Request) (id : Int) (args : URIArgs)
    (repo : String)
    (hparse : pkg.ParseURI req.Path = .ok (id, args))
    (hrepo : opts.Resolver.GetRepo id = .returns repo none)
    (hfail : (∃ err, pkg.Id2RelPath id args = .error err) ∨
      (∃ err, opts.Template.Expand [("repo", repo)] = .error err) ∨
      (∃ rel_path root_uri err, pkg.Id2RelPath id args = .ok rel_path ∧
        opts.Template.Expand [("repo", repo)] = .ok root_uri ∧
        pkg.JoinPath root_uri rel_path = .error err)) :
    responses ((NewRedirectHandler pkg opts).1 req)
      = [.Error "Internal server error" 500] ∧
    (responses ((NewRedirectHandler pkg opts).1 req)).map Response.status = [500] ∧
    (responses ((NewRedirectHandler pkg opts).1 req)).map Response.location = [none] := by
  have hrun : responses ((NewRedirectHandler pkg opts).1 req)
      = [.Error "Internal server error" 500] := by
    rcases hrel : pkg.Id2RelPath id args with err | rel_path
    · rw [run_relpath_error pkg opts req id args repo err hparse hrepo hrel]
      simp [responses, Event.response]
    · rcases hexp : opts.Template.Expand [("repo", repo)] with err | root_uri
      · rw [run_expand_error pkg opts req id args repo rel_path err hparse hrepo hrel hexp]
        simp [responses, Event.response]
      · rcases hfail with ⟨err, h⟩ | ⟨err, h⟩ | ⟨rel2, root2, err, h1, h2, h3⟩
        · rw [hrel] at h; cases h
        · rw [hexp] at h; cases h
        · rw [hrel] at h1; rw [hexp] at h2
          cases h1; cases h2
          rw [run_join_error pkg opts req id args repo rel_path root_uri err
            hparse hrepo hrel hexp h3]
          simp [responses, Event.response]
  rw [hrun]
  simp [Response.status, Response.location]

/-- A template whose placeholder is never closed cannot be expanded; the handler
answers 500 and sets no Location. -/
theorem composition_failure_internal_error_broken_template :
    (responses ((NewRedirectHandler scenarioPackages brokenTemplateOptions).1
      ⟨"/1360391327"⟩)).map Response.status = [500] ∧
    (responses ((NewRedirectHandler scenarioPackages brokenTemplateOptions).1
      ⟨"/1360391327"⟩)).map Response.location = [none] :=
  (composition_failure_internal_error scenarioPackages brokenTemplateOptions
    ⟨"/1360391327"⟩ 1360391327 ⟨[]⟩ "sfomuseum-data-maps" rfl rfl
    (Or.inr (Or.inl ⟨⟨"TemplateExpansionError", false⟩, rfl⟩))).2

/-! ## The handler: failures and the order of the steps -/

theorem responses_of_failedStep (pkg : Packages) (opts : RedirectHandlerOptions)
    (req : Request) (s : Step)
    (h : failedStep ((NewRedirectHandler pkg opts).1 req) = some s) :
    responses ((NewRedirectHandler pkg opts).1 req) = [failureResponse s] := by
  rcases hparse : pkg.ParseURI req.Path with err | ⟨id, args⟩
  · rw [run_parse_error pkg opts req err hparse] at h ⊢
    simp [failedStep, outcomes, Event.outcome, ending] at h
    subst h
    simp [responses, Event.response, failureResponse, StatusBadRequest]
  rcases hrepo : opts.Resolver.GetRepo id with ⟨repo, _ | err⟩ | _
  rotate_left
  · rw [run_resolve_error pkg opts req id args repo err hparse hrepo] at h ⊢
    simp [failedStep, outcomes, Event.outcome, ending, Result.ending] at h
    subst h
    simp [responses, Event.response, failureResponse, StatusNotFound]
  · rw [run_resolve_panic pkg opts req id args hparse hrepo] at h
    simp [failedStep, outcomes, Event.outcome, ending, Result.ending] at h
  rcases hrel : pkg.Id2RelPath id args with err | rel_path
  · rw [run_relpath_error pkg opts req id args repo err hparse hrepo hrel] at h ⊢
    simp [failedStep, outcomes, Event.outcome, ending, Result.ending] at h
    subst h
    simp [responses, Event.response, failureResponse, StatusInternalServerError]
  rcases hexp : opts.Template.Expand [("repo", repo)] with err | root_uri
  · rw [run_expand_error pkg opts req id args repo rel_path err hparse hrepo hrel hexp] at h ⊢
    simp [failedStep, outcomes, Event.outcome, ending, Result.ending] at h
    subst h
    simp [responses, Event.response, failureResponse, StatusInternalServerError]
  rcases hjoin : pkg.JoinPath root_uri rel_path with err | data_uri
  · rw [run_join_error pkg opts req id args repo rel_path root_uri err
      hparse hrepo hrel hexp hjoin] at h ⊢
    simp [failedStep, outcomes, Event.outcome, ending, Result.ending] at h
    subst h
    simp [responses, Event.response, failureResponse, StatusInternalServerError]
  · rw [run_success pkg opts req id args repo rel_path root_uri data_uri
      hparse hrepo hrel hexp hjoin] at h
    simp [failedStep, outcomes, Event.outcome, ending, Result.ending] at h

/-- C9: two requests that fail at the same step, whatever the packages, options,
paths, identifiers and error values, receive the same response: one `http.Error`
whose body and status are those fixed for the step (`failureResponse`), a value
that depends on nothing but the step. -/
theorem failure_response_carries_no_detail (pkg₁ pkg₂ : Packages)
    (opts₁ opts₂ : RedirectHandlerOptions) (req₁ req₂ : Request) (s : Step)
    (h₁ : failedStep ((NewRedirectHandler pkg₁ opts₁).1 req₁) = some s)
    (h₂ : failedStep ((NewRedirectHandler pkg₂ opts₂).1 req₂) = some s) :
    responses ((NewRedirectHandler pkg₁ opts₁).1 req₁)
      = responses ((NewRedirectHandler pkg₂ opts₂).1 req₂) ∧
    responses ((NewRedirectHandler pkg₁ opts₁).1 req₁) = [failureResponse s] ∧
    responses ((NewRedirectHandler pkg₂ opts₂).1 req₂) = [failureResponse s] := by
  have e₁ := responses_of_failedStep pkg₁ opts₁ req₁ s h₁
  have e₂ := responses_of_failedStep pkg₂ opts₂ req₂ s h₂
  exact ⟨e₁.trans e₂.symm, e₁, e₂⟩

/-- An absent identifier (request /12, a not-found error) and an unreachable
backend (request /1360391327, a connection error) both fail at the resolve step
and receive the same response. -/
theorem failure_response_carries_no_detail_resolve :
    responses ((NewRedirectHandler scenarioPackages scenarioOptions).1 ⟨"/12"⟩)
      = responses ((NewRedirectHandler scenarioPackages unreachableOptions).1
          ⟨"/1360391327"⟩) ∧
    responses ((NewRedirectHandler scenarioPackages scenarioOptions).1 ⟨"/12"⟩)
      = [.Error "Not found" 404] :=
  have h := failure_response_carries_no_detail scenarioPackages scenarioPackages
    scenarioOptions unreachableOptions ⟨"/12"⟩ ⟨"/1360391327"⟩ .Resolve
    (by rfl) (by rfl)
  ⟨h.1, h.2.1⟩

/-- The order of the steps, the short circuit and the response, for every request
and for each of the three endings of the last call.  The run starts with the
parser applied to the request path; every recorded call carries the result its
collaborator gives; the steps invoked are the first `k ≥ 1` steps of the order
Parse, Resolve, DeriveRelativePath, Expand, Join; none is invoked twice; every
one but the last returned a nil error.  When the last one returned an error, the
handler writes exactly one response, the error response of that step; when it
returned a nil error, all five steps were invoked and the handler writes exactly
one response, the 303 redirect to the joined URL; in both cases the response is
written by the last call of the run.  When it panicked, it is the resolve step
and the handler writes no response. -/
theorem run_in_order_short_circuit (pkg : Packages) (opts : RedirectHandlerOptions)
    (req : Request) :
    ((NewRedirectHandler pkg opts).1 req).head?
      = some (.ParseURI req.Path (pkg.ParseURI req.Path)) ∧
    (∀ e ∈ (NewRedirectHandler pkg opts).1 req, e.genuine pkg opts) ∧
    (∃ k, 1 ≤ k ∧ steps ((NewRedirectHandler pkg opts).1 req) = pipeline.take k) ∧
    (steps ((NewRedirectHandler pkg opts).1 req)).Nodup ∧
    (∀ p ∈ (outcomes ((NewRedirectHandler pkg opts).1 req)).dropLast, p.2 = .success) ∧
    match (outcomes ((NewRedirectHandler pkg opts).1 req)).getLast? with
    | some (s, .failure) =>
        failedStep ((NewRedirectHandler pkg opts).1 req) = some s ∧
        responses ((NewRedirectHandler pkg opts).1 req) = [failureResponse s] ∧
        ((NewRedirectHandler pkg opts).1 req).getLast?.bind Event.response
          = some (failureResponse s)
    | some (_, .success) =>
        failedStep ((NewRedirectHandler pkg opts).1 req) = none ∧
        steps ((NewRedirectHandler pkg opts).1 req) = pipeline ∧
        ∃ root_uri rel_path data_uri,
          .JoinPath root_uri rel_path (.ok data_uri) ∈ (NewRedirectHandler pkg opts).1 req ∧
          responses ((NewRedirectHandler pkg opts).1 req) = [.Redirect data_uri 303] ∧
          ((NewRedirectHandler pkg opts).1 req).getLast?.bind Event.response
            = some (.Redirect data_uri 303)
    | some (s, .panic) =>
        s = .Resolve ∧
        failedStep ((NewRedirectHandler pkg opts).1 req) = none ∧
        responses ((NewRedirectHandler pkg opts).1 req) = []
    | none => False := by
  rcases hparse : pkg.ParseURI req.Path with err | ⟨id, args⟩
  · rw [run_parse_error pkg opts req err hparse]
    refine ⟨?_, ?_, ⟨1, le_refl _, ?_⟩, ?_, ?_, ?_⟩ <;>
      simp [steps, Event.step, pipeline, outcomes, Event.outcome, ending, Result.ending,
        responses, Event.response, failedStep, failureResponse, StatusBadRequest,
        Event.genuine, hparse]
  rcases hrepo : opts.Resolver.GetRepo id with ⟨repo, _ | err⟩ | _
  rotate_left
  · rw [run_resolve_error pkg opts req id args repo err hparse hrepo]
    refine ⟨?_, ?_, ⟨2, by decide, ?_⟩, ?_, ?_, ?_⟩ <;>
      simp [steps, Event.step, pipeline, outcomes, Event.outcome, ending, Result.ending,
        responses, Event.response, failedStep, failureResponse, StatusNotFound,
        Event.genuine, hparse, hrepo]
  · rw [run_resolve_panic pkg opts req id args hparse hrepo]
    refine ⟨?_, ?_, ⟨2, by decide, ?_⟩, ?_, ?_, ?_⟩ <;>
      simp [steps, Event.step, pipeline, outcomes, Event.outcome, ending, Result.ending,
        responses, Event.response, failedStep, Event.genuine, hparse, hrepo]
  rcases hrel : pkg.Id2RelPath id args with err | rel_path
  · rw [run_relpath_error pkg opts req id args repo err hparse hrepo hrel]
    refine ⟨?_, ?_, ⟨3, by decide, ?_⟩, ?_, ?_, ?_⟩ <;>
      simp [steps, Event.step, pipeline, outcomes, Event.outcome, ending, Result.ending,
        responses, Event.response, failedStep, failureResponse, StatusInternalServerError,
        Event.genuine, hparse, hrepo, hrel]
  rcases hexp : opts.Template.Expand [("repo", repo)] with err | root_uri
  · rw [run_expand_error pkg opts req id args repo rel_path err hparse hrepo hrel hexp]
    refine ⟨?_, ?_, ⟨4, by decide, ?_⟩, ?_, ?_, ?_⟩ <;>
      simp [steps, Event.step, pipeline, outcomes, Event.outcome, ending, Result.ending,
        responses, Event.response, failedStep, failureResponse, StatusInternalServerError,
        Event.genuine, hparse, hrepo, hrel, hexp]
  rcases hjoin : pkg.JoinPath root_uri rel_path with err | data_uri
  · rw [run_join_error pkg opts req id args repo rel_path root_uri err
      hparse hrepo hrel hexp hjoin]
    refine ⟨?_, ?_, ⟨5, by decide, ?_⟩, ?_, ?_, ?_⟩ <;>
      simp [steps, Event.step, pipeline, outcomes, Event.outcome, ending, Result.ending,
        responses, Event.response, failedStep, failureResponse, StatusInternalServerError,
        Event.genuine, hparse, hrepo, hrel, hexp, hjoin]
  · rw [run_success pkg opts req id args repo rel_path root_uri data_uri
      hparse hrepo hrel hexp hjoin]
    refine ⟨?_, ?_, ⟨5, by decide, ?_⟩, ?_, ?_, ?_⟩ <;>
      simp [steps, Event.step, pipeline, outcomes, Event.outcome, ending, Result.ending,
        responses, Event.response, failedStep, failureResponse,
        Event.genuine, hparse, hrepo, hrel, hexp, hjoin]

/-- C10 on the code: "exactly one response is written for every request" fails.
The handler is given the document-store resolver over a collection whose stored
record of identifier 1360391327 has the number 42 as its repository-name field,
and serves the request /1360391327.  The path parses, `GetRepo` is called and
panics at its type assertion, the handler has no `recover`, and the run ends
there: the steps invoked are Parse and Resolve, in that order and once each, and
no response is written, neither an error response nor the redirect. -/
theorem no_response_when_GetRepo_panics :
    (NewRedirectHandler scenarioPackages malformedRecordOptions).1 ⟨"/1360391327"⟩
      = [ .ParseURI "/1360391327" (.ok (1360391327, ⟨[]⟩)),
          .GetRepo 1360391327 .panics ] ∧
    steps ((NewRedirectHandler scenarioPackages malformedRecordOptions).1
      ⟨"/1360391327"⟩) = [.Parse, .Resolve] ∧
    responses ((NewRedirectHandler scenarioPackages malformedRecordOptions).1
      ⟨"/1360391327"⟩) = [] ∧
    (responses ((NewRedirectHandler scenarioPackages malformedRecordOptions).1
      ⟨"/1360391327"⟩)).length ≠ 1 :=
  ⟨rfl, by decide, by decide, by decide⟩

/-! ## The document-store resolver -/

/-- C5 on the code: whenever the lookup succeeds and the repository-name entry of
the populated document is missing or is not a string, `GetRepo` panics at the type
assertion; it does not return an error. -/
theorem GetRepo_panics_on_malformed_record (r : DocstoreResolver) (id : Int) (doc : Doc)
    (hget : r.collection.Get [("id", .int64 id), ("repo_name", .string "")] = .ok doc)
    (hfield : ∀ repo, doc.index "repo_name" ≠ .string repo) :
    r.GetRepo id = .panics := by
  have hassert : (doc.index "repo_name").assertString = none := by
    cases hv : doc.index "repo_name" with
    | string repo => exact absurd hv (hfield repo)
    | nil => rfl
    | int64 i => rfl
    | bool flag => rfl
  simp [DocstoreResolver.GetRepo, hget, hassert]

/-- The failing input of C5: the stored record of identifier 1360391327 has the
number 42 as its repository-name field, the lookup succeeds and `GetRepo` panics.
When the stored record has no repository-name field, the entry the document was
initialised with is still there and `GetRepo` returns the empty name with a nil
error. -/
theorem GetRepo_panics_on_malformed_record_42 :
    DocstoreResolver.GetRepo
        ⟨tableCollection [(1360391327,
          [("id", .int64 1360391327), ("repo_name", .int64 42)])]⟩ 1360391327
      = .panics ∧
    DocstoreResolver.GetRepo
        ⟨tableCollection [(1360391327, [("id", .int64 1360391327)])]⟩ 1360391327
      = .returns "" none :=
  ⟨GetRepo_panics_on_malformed_record
      ⟨tableCollection [(1360391327,
        [("id", .int64 1360391327), ("repo_name", .int64 42)])]⟩ 1360391327
      [("id", .int64 1360391327), ("repo_name", .int64 42),
       ("id", .int64 1360391327), ("repo_name", .string "")]
      rfl (fun repo h => Value.noConfusion (h : Value.int64 42 = Value.string repo)),
    by decide⟩

theorem TrimLeft_slash (s : String) :
    ∃ k, s.data = List.replicate k '/' ++ (TrimLeft s "/").data ∧
      (TrimLeft s "/").data.head? ≠ some '/' := by
  have hsplit : s.data = (s.data.takeWhile fun c => "/".data.contains c) ++
      (TrimLeft s "/").data :=
    (List.takeWhile_append_dropWhile _ _).symm
  have hpre : ∀ c ∈ s.data.takeWhile (fun c => "/".data.contains c), c = '/' := by
    intro c hc
    have := List.mem_takeWhile_imp hc
    simpa using this
  refine ⟨(s.data.takeWhile fun c => "/".data.contains c).length, ?_, ?_⟩
  · rw [← List.eq_replicate_of_mem hpre]
    exact hsplit
  · intro hhead
    have h := List.head?_dropWhile_not (fun c => "/".data.contains c) s.data
    have hhead2 : (s.data.dropWhile fun c => "/".data.contains c).head? = some '/' := hhead
    rw [hhead2] at h
    simp at h

/-- C6: `NewDocstoreResolver` dispatches on the scheme of the parsed configuration
URI.  For the scheme awsdynamodb its first call builds a client from the full
URI, and when that succeeds its only other call opens the collection through
that client with the table name `TrimLeft(u.Host, "/")` (the host with every
leading slash stripped), the partition key `u.Query().Get("partition_key")` and
an empty sort key.  For every other scheme its only call opens the collection
through the storage driver with the unmodified configuration URI; no client is
built. -/
theorem NewDocstoreResolver_dispatch {Client : Type} (b : Backend Client) (uri : String)
    (u : URL) (hparse : b.Parse uri = .ok u) :
    (u.Scheme = "awsdynamodb" →
      (∀ client, b.NewClientWithURI uri = .ok client →
        (NewDocstoreResolver b uri).calls =
          [.NewClientWithURI uri,
           .DynamoOpenCollection client (TrimLeft u.Host "/")
             (Values.Get u.Query "partition_key") ""]) ∧
      (∀ err, b.NewClientWithURI uri = .error err →
        (NewDocstoreResolver b uri).calls = [.NewClientWithURI uri])) ∧
    (u.Scheme ≠ "awsdynamodb" →
      (NewDocstoreResolver b uri).calls = [.OpenCollection uri]) ∧
    (∃ k, u.Host.data = List.replicate k '/' ++ (TrimLeft u.Host "/").data ∧
      (TrimLeft u.Host "/").data.head? ≠ some '/') := by
  refine ⟨?_, ?_, TrimLeft_slash u.Host⟩
  · intro hscheme
    constructor
    · intro client hclient
      rcases hopen : b.DynamoOpenCollection client (TrimLeft u.Host "/")
          (Values.Get u.Query "partition_key") "" with err | col <;>
        simp [NewDocstoreResolver, hparse, hscheme, hclient, hopen]
    · intro err hclient
      simp [NewDocstoreResolver, hparse, hscheme, hclient]
  · intro hscheme
    rcases hopen : b.OpenCollection uri with err | col <;>
      simp [NewDocstoreResolver, hparse, hscheme, hopen]

/-- The URI of the header comment of docstore.go: a client is built from the URI
and the table findingaid is opened through it with partition key id.  A URI of
another scheme goes to the storage driver as it is. -/
theorem NewDocstoreResolver_dispatch_findingaid :
    (NewDocstoreResolver localBackend findingaidURI).calls =
      [.NewClientWithURI findingaidURI,
       .DynamoOpenCollection findingaidURI "findingaid" "id" ""] ∧
    (NewDocstoreResolver localBackend "mem://findingaid/id").calls =
      [.OpenCollection "mem://findingaid/id"] :=
  ⟨((NewDocstoreResolver_dispatch localBackend findingaidURI
      ⟨"awsdynamodb", "findingaid",
        [("region", ["us-west-2"]), ("endpoint", ["http://localhost:8000"]),
         ("credentials", ["static:local:local:local"]), ("partition_key", ["id"])]⟩
      rfl).1 rfl).1 findingaidURI rfl,
    (NewDocstoreResolver_dispatch localBackend "mem://findingaid/id"
      ⟨"mem", "findingaid", []⟩ rfl).2.1 (by decide)⟩

/-- C7: `NewDocstoreResolver` returns an error exactly when the configuration URI
cannot be parsed, or the scheme is awsdynamodb and building the client or
opening the collection through the client fails, or the scheme is another one
and opening the collection through the storage driver fails.  With an error the
resolver is nil; without one the resolver holds the collection that the open
call returned. -/
theorem NewDocstoreResolver_fails_iff {Client : Type} (b : Backend Client) (uri : String) :
    ((NewDocstoreResolver b uri).err ≠ none ↔
      (∃ e, b.Parse uri = .error e) ∨
      (∃ u, b.Parse uri = .ok u ∧ u.Scheme = "awsdynamodb" ∧
        ((∃ e, b.NewClientWithURI uri = .error e) ∨
         (∃ client e, b.NewClientWithURI uri = .ok client ∧
            b.DynamoOpenCollection client (TrimLeft u.Host "/")
              (Values.Get u.Query "partition_key") "" = .error e))) ∨
      (∃ u, b.Parse uri = .ok u ∧ u.Scheme ≠ "awsdynamodb" ∧
        ∃ e, b.OpenCollection uri = .error e)) ∧
    ((NewDocstoreResolver b uri).err ≠ none → (NewDocstoreResolver b uri).resolver = none) ∧
    ((NewDocstoreResolver b uri).err = none →
      ∃ u col, b.Parse uri = .ok u ∧
        ((u.Scheme = "awsdynamodb" ∧ ∃ client, b.NewClientWithURI uri = .ok client ∧
            b.DynamoOpenCollection client (TrimLeft u.Host "/")
              (Values.Get u.Query "partition_key") "" = .ok col) ∨
         (u.Scheme ≠ "awsdynamodb" ∧ b.OpenCollection uri = .ok col)) ∧
        (NewDocstoreResolver b uri).resolver = some { collection := col }) := by
  rcases hparse : b.Parse uri with e | u
  · simp [NewDocstoreResolver, hparse]
  by_cases hscheme : u.Scheme = "awsdynamodb"
  · rcases hclient : b.NewClientWithURI uri with e | client
    · simp [NewDocstoreResolver, hparse, hscheme, hclient]
    rcases hopen : b.DynamoOpenCollection client (TrimLeft u.Host "/")
        (Values.Get u.Query "partition_key") "" with e | col
    · simp [NewDocstoreResolver, hparse, hscheme, hclient, hopen]
    · simp [NewDocstoreResolver, hparse, hscheme, hclient, hopen]
  · rcases hopen : b.OpenCollection uri with e | col
    · simp [NewDocstoreResolver, hparse, hscheme, hopen]
    · simp [NewDocstoreResolver, hparse, hscheme, hopen]

end WhosOnFirst
